import Mathlib

/-!
Shallow embedding of the pynats client core (src/pynats/connection.py).

The wire input read from the socket file object is modelled as a `List Char`
byte stream; each outgoing `_send` command is recorded as a `String` (the
source appends a trailing CRLF to every command before writing it).
`time.time()` is modelled as a clock oracle `Nat → Int` together with a
counter of calls made so far, so that the source's two separate calls to
`time.time()` inside the duration condition are two separate readings.

The modules `pynats.commands`, `pynats.subscription` and `pynats.message` are
not part of the sources at hand; the definitions that stand in for them are
marked `Modelled from the spec:` and follow the spec's frame grammar
(`MSG <subject> <sid> [<reply>] <size>`, `PING`, `+OK`, ...) and its
description of Subscription and Message.
-/

namespace PyNats

/-- Whitespace characters removed by Python's `str.strip` (the ones that can
occur in this protocol's lines). -/
def isSpace (c : Char) : Bool :=
  c = ' ' || c = '\t' || c = '\n' || c = '\r'

/-- Python `str.strip()`: drop leading and trailing whitespace. -/
def strip (l : List Char) : List Char :=
  ((l.dropWhile isSpace).reverse.dropWhile isSpace).reverse

/-- `file.readline()`: consume up to and including the first newline byte;
at end of stream it returns the empty string, as Python does at EOF. -/
def readline : List Char → List Char × List Char
  | [] => ([], [])
  | c :: cs =>
    if c = '\n' then ([c], cs)
    else
      let r := readline cs
      (c :: r.1, r.2)

/-- Split on runs of whitespace, dropping empty pieces (the regex token
separator `\s+` of the command patterns). -/
def splitWsAux : List Char → List Char → List (List Char)
  | [], acc => if acc = [] then [] else [acc.reverse]
  | c :: cs, acc =>
    if isSpace c then
      if acc = [] then splitWsAux cs [] else acc.reverse :: splitWsAux cs []
    else splitWsAux cs (c :: acc)

def splitWs (l : List Char) : List (List Char) :=
  splitWsAux l []

def digit (c : Char) : Option Nat :=
  if '0' ≤ c ∧ c ≤ '9' then some (c.toNat - '0'.toNat) else none

/-- Decimal parse of a token; `none` when empty or non-numeric (a failed
`[0-9]+` group match). -/
def parseNat (l : List Char) : Option Nat :=
  match l with
  | [] => none
  | _ =>
    l.foldl
      (fun acc c =>
        match acc, digit c with
        | some n, some d => some (n * 10 + d)
        | _, _ => none)
      (some 0)

/-- Modelled from the spec: the protocol verbs of the command table in
`pynats.commands` (module not under src/); spec section 6 lists them. -/
inductive Cmd
  | msg
  | info
  | ping
  | pong
  | ok
deriving DecidableEq

/-- Fields extracted from a matched `MSG` header line:
`MSG <subject> <sid> [<reply>] <size>` (spec section 6). -/
structure MsgHeader where
  subject : List Char
  sid : Nat
  reply : Option (List Char)
  size : Nat
deriving DecidableEq

/-- Result of matching a classified line against its command pattern. -/
inductive Matched
  | msg (h : MsgHeader)
  | ctrl (c : Cmd)
deriving DecidableEq

/-- `_get_command`: `line.strip().split(' ', 1)`, then look the first piece up
in the command table. Modelled from the spec: the table keys are the verbs of
spec section 6 (`pynats.commands` is not under src/). -/
def get_command (line : List Char) : Option Cmd :=
  let verb := (strip line).takeWhile (fun c => c ≠ ' ')
  if verb = "MSG".toList then some Cmd.msg
  else if verb = "INFO".toList then some Cmd.info
  else if verb = "PING".toList then some Cmd.ping
  else if verb = "PONG".toList then some Cmd.pong
  else if verb = "+OK".toList then some Cmd.ok
  else none

/-- Modelled from the spec: the `MSG` matching rule extracts subject, numeric
sid, optional reply and numeric size; the control verbs match with no fields.
A line whose fields do not parse is a failed match (`command.match` returns
`None` in the source, raising `UnknownResponse` in `_recv`). -/
def matchCmd (c : Cmd) (line : List Char) : Option Matched :=
  match c with
  | Cmd.msg =>
    match splitWs (strip line) with
    | [_, subj, sidT, sizeT] =>
      match parseNat sidT, parseNat sizeT with
      | some sid, some size => some (Matched.msg ⟨subj, sid, none, size⟩)
      | _, _ => none
    | [_, subj, sidT, replyT, sizeT] =>
      match parseNat sidT, parseNat sizeT with
      | some sid, some size => some (Matched.msg ⟨subj, sid, some replyT, size⟩)
      | _, _ => none
    | _ => none
  | c => some (Matched.ctrl c)

/-- The exceptions that the embedded operations can raise.  `keyError` and
`attributeError` are Python's built-in errors (`dict.pop` on a missing key,
attribute access on `None`); `unexpectedResponse` and `unknownResponse` are
the classes defined in connection.py; `notSubscribed` is the error the spec's
taxonomy prescribes for unsubscribing an unknown id (the source defines no
such class). -/
inductive PyError
  | keyError (k : Nat)
  | attributeError
  | notSubscribed
  | unexpectedResponse
  | unknownResponse
deriving DecidableEq

/-- Modelled from the spec: `pynats.message.Message` (not under src/): the
subscription id, the declared byte size, the raw payload and the optional
reply subject. -/
structure Message where
  sid : Nat
  size : Nat
  data : List Char
  reply : Option (List Char)
deriving DecidableEq

/-- Modelled from the spec: `pynats.subscription.Subscription` (not under
src/): id, subject, queue group and callback; its `handle_msg` forwards the
Message to the callback, whose boolean result signals continue (`true`) or
stop (`false`, the loop's `is False` test). -/
structure Subscription where
  sid : Nat
  subject : String
  queue : String
  callback : Message → Bool

def Subscription.handle_msg (s : Subscription) (m : Message) : Bool :=
  s.callback m

/-- The Session state: `self._subscriptions` (a dict, modelled as an
association list with unique keys), `self._next_sid`, and `self._socket`
(abstracted to whether a transport is held). -/
structure Connection where
  subscriptions : List (Nat × Subscription)
  next_sid : Nat
  sock : Option Unit

/-- Python `dict.get`: first (only) binding of the key, else `none`. -/
def dictGet (d : List (Nat × Subscription)) (k : Nat) : Option Subscription :=
  match d with
  | [] => none
  | (k', v) :: rest => if k' = k then some v else dictGet rest k

/-- Python `dict.pop(k)` with no default: the dict without the binding, or
`none` when the key is missing (in which case Python raises `KeyError` and
the dict is unchanged). -/
def dictPop (d : List (Nat × Subscription)) (k : Nat) : Option (List (Nat × Subscription)) :=
  match d with
  | [] => none
  | (k', v) :: rest =>
    if k' = k then some rest
    else
      match dictPop rest k with
      | none => none
      | some rest' => some ((k', v) :: rest')

/-- Python `d[k] = v`: overwrite the existing binding or append a new one. -/
def dictInsert (d : List (Nat × Subscription)) (k : Nat) (v : Subscription) :
    List (Nat × Subscription) :=
  match d with
  | [] => [(k, v)]
  | (k', v') :: rest => if k' = k then (k, v) :: rest else (k', v') :: dictInsert rest k v

/-- `subscribe(subject, callback)`: build the Subscription with the current
`_next_sid`, insert it in the registry, send `SUB <subject> <queue> <sid>`,
increment the counter, return the handle.  Result: new state, sent commands,
returned Subscription. -/
def subscribe (c : Connection) (subject : String) (callback : Message → Bool) :
    Connection × List String × Subscription :=
  let s : Subscription := { sid := c.next_sid, subject := subject, queue := "", callback := callback }
  ({ c with
      subscriptions := dictInsert c.subscriptions s.sid s,
      next_sid := c.next_sid + 1 },
   ["SUB " ++ s.subject ++ " " ++ s.queue ++ " " ++ toString s.sid], s)

/-- `unsubscribe(subscription)`: send `UNSUB <sid>` first, then
`self._subscriptions.pop(subscription.sid)`.  Result: sent commands, the
state after the call (unchanged when pop raises), and the raised error if
any (`KeyError` on a missing key). -/
def unsubscribe (c : Connection) (sub : Subscription) :
    List String × Connection × Option PyError :=
  let sent := ["UNSUB " ++ toString sub.sid]
  match dictPop c.subscriptions sub.sid with
  | none => (sent, c, some (PyError.keyError sub.sid))
  | some d => (sent, { c with subscriptions := d }, none)

/-- `publish(subject, msg, reply)`: the two commands handed to `_send`
(`_send` itself appends the CRLF): the header with the length computed from
the payload, then the raw payload.  No read from the stream occurs. -/
def publish (subject : String) (msg : String) (reply : Option String) : List String :=
  match reply with
  | none => ["PUB " ++ subject ++ " " ++ toString msg.length, msg]
  | some r => ["PUB " ++ subject ++ " " ++ r ++ " " ++ toString msg.length, msg]

/-- The spec's words for the publish header: `PUB <subject> [<reply>]
<byte-length>`, the byte length computed from the payload. -/
def specPubHeader (subject : String) (reply : Option String) (size : Nat) : String :=
  match reply with
  | none => "PUB " ++ subject ++ " " ++ toString size
  | some r => "PUB " ++ subject ++ " " ++ r ++ " " ++ toString size

/-- `close()`: the source body is `pass`; the state is returned untouched. -/
def close (c : Connection) : Connection := c

/-- `_recv(*expected_commands)`: read one line, classify it, demand the verb
be among the expected ones (`UnexpectedResponse` otherwise, also when the
verb is unknown), match the pattern (`UnknownResponse` on a failed match). -/
def recv (expected : List Cmd) (stream : List Char) :
    Except PyError Matched × List Char :=
  let line := (readline stream).1
  let rest := (readline stream).2
  match get_command line with
  | none => (Except.error PyError.unexpectedResponse, rest)
  | some cmd =>
    if cmd ∈ expected then
      match matchCmd cmd line with
      | none => (Except.error PyError.unknownResponse, rest)
      | some m => (Except.ok m, rest)
    else (Except.error PyError.unexpectedResponse, rest)

/-- `_handle_msg(result)`: build the Message — the payload is
`self._socket_file.readline().strip()`, NOT a read of `size` bytes — then
look the sid up with `dict.get` and call `handle_msg` on the result; when
the sid is unregistered the lookup yields `None` and the call raises
`AttributeError`.  Result: the callback's verdict or the error, the Message
that was built, and the remaining stream. -/
def handle_msg (c : Connection) (h : MsgHeader) (stream : List Char) :
    Except PyError Bool × Message × List Char :=
  let line := (readline stream).1
  let rest := (readline stream).2
  let m : Message :=
    { sid := h.sid, size := h.size, data := strip line, reply := h.reply.map strip }
  match dictGet c.subscriptions h.sid with
  | none => (Except.error PyError.attributeError, m, rest)
  | some s => (Except.ok (s.handle_msg m), m, rest)

/-- Python truthiness of the `duration` argument (`None` and `0` are falsy). -/
def durTruthy : Option Int → Bool
  | none => false
  | some d => d ≠ 0

/-- The running state of the `wait` loop: session, remaining input stream,
commands sent so far, the `total` counter, and the number of `time.time()`
calls made so far (the call for `start` is reading 0). -/
structure WaitSt where
  conn : Connection
  stream : List Char
  sent : List String
  total : Nat
  tick : Nat

/-- Outcome of one iteration of the `while True` body. -/
inductive StepRes
  | cont (st : WaitSt)
  | brk (st : WaitSt)
  | fail (e : PyError) (st : WaitSt)

/-- The loop-tail condition `if duration and time.time() - time.time() -
start: break` — two fresh clock readings are taken (only when `duration` is
truthy, by short-circuit), and the loop breaks when the expression
`t1 - t2 - start` is nonzero (truthy). -/
def durCheck (clock : Nat → Int) (start : Int) (duration : Option Int)
    (st : WaitSt) : StepRes :=
  if durTruthy duration then
    let t1 := clock st.tick
    let t2 := clock (st.tick + 1)
    let st' := { st with tick := st.tick + 2 }
    if t1 - t2 - start ≠ 0 then StepRes.brk st' else StepRes.cont st'
  else StepRes.cont st

/-- One iteration of the `wait` loop body: `_recv(MSG, PING, OK)`; on MSG
increment `total`, run `_handle_msg` (break when it returns `False`), then
`if count and count >= total: break`; on PING send `PONG`
(`_handle_ping`); then the duration condition. -/
def waitStep (clock : Nat → Int) (start : Int) (duration : Option Int)
    (count : Nat) (st : WaitSt) : StepRes :=
  match recv [Cmd.msg, Cmd.ping, Cmd.ok] st.stream with
  | (Except.error e, rest) => StepRes.fail e { st with stream := rest }
  | (Except.ok (Matched.msg h), rest) =>
    let total := st.total + 1
    match handle_msg st.conn h rest with
    | (Except.error e, _, rest2) =>
      StepRes.fail e { st with stream := rest2, total := total }
    | (Except.ok b, _, rest2) =>
      let st' := { st with stream := rest2, total := total }
      if b = false then StepRes.brk st'
      else if count ≠ 0 ∧ count ≥ total then StepRes.brk st'
      else durCheck clock start duration st'
  | (Except.ok (Matched.ctrl c), rest) =>
    if c = Cmd.ping then
      durCheck clock start duration { st with stream := rest, sent := st.sent ++ ["PONG"] }
    else
      durCheck clock start duration { st with stream := rest }

/-- Result of running the loop: it returned (some break fired), an exception
propagated, or the fuel ran out with the loop still going. -/
inductive WaitRes
  | finished (st : WaitSt)
  | failed (e : PyError) (st : WaitSt)
  | out (st : WaitSt)

def waitRun (clock : Nat → Int) (start : Int) (duration : Option Int)
    (count : Nat) : Nat → WaitSt → WaitRes
  | 0, st => WaitRes.out st
  | Nat.succ fuel, st =>
    match waitStep clock start duration count st with
    | StepRes.cont st' => waitRun clock start duration count fuel st'
    | StepRes.brk st' => WaitRes.finished st'
    | StepRes.fail e st' => WaitRes.failed e st'

/-- `wait(duration, count)`: `start = time.time()` (clock reading 0), then
the loop, starting with `total = 0` and nothing sent. -/
def wait (clock : Nat → Int) (duration : Option Int) (count : Nat)
    (c : Connection) (stream : List Char) (fuel : Nat) : WaitRes :=
  waitRun clock (clock 0) duration count fuel ⟨c, stream, [], 0, 1⟩

def WaitRes.st : WaitRes → WaitSt
  | WaitRes.finished st => st
  | WaitRes.failed _ st => st
  | WaitRes.out st => st

def WaitRes.isFinished : WaitRes → Bool
  | WaitRes.finished _ => true
  | _ => false

/-! Concrete fixtures used by the witnesses and counterexamples. -/

/-- A callback that never asks the loop to stop. -/
def cbTrue : Message → Bool := fun _ => true

/-- A subscription with id 1 on subject `foo`. -/
def sub1 : Subscription :=
  { sid := 1, subject := "foo", queue := "", callback := cbTrue }

/-- A connected session with `sub1` registered. -/
def conn1 : Connection :=
  { subscriptions := [(1, sub1)], next_sid := 2, sock := some () }

/-- A freshly connected session with an empty registry. -/
def emptyConn : Connection :=
  { subscriptions := [], next_sid := 1, sock := some () }

/-- One complete broker `MSG` frame for sid 1, payload `hi` (size 2). -/
def msgFrame : List Char := ("MSG foo 1 2\r\nhi\r\n").toList

/-- A clock that always reads 0. -/
def clk0 : Nat → Int := fun _ => 0

/-- A clock that always reads 100 (no time elapses during the run). -/
def clk100 : Nat → Int := fun _ => 100

/-- The parsed header of the broker's echo of `publish("foo", "a\nb")`. -/
def hdrEcho : MsgHeader := { subject := "foo".toList, sid := 1, reply := none, size := 3 }

/-! Claim theorems. -/

/-- C1: the claim says `wait(count=n)` processes exactly `n` message frames
then returns.  On the source the exit test is `count and count >= total`,
which is already true at `total = 1` for every `count ≥ 1`: with `count = 2`
and three MSG frames pending, the loop returns after processing exactly one
frame, with the other two frames still on the stream. -/
theorem C1_count_budget_bug :
    (wait clk0 none 2 conn1 (msgFrame ++ msgFrame ++ msgFrame) 10).isFinished = true ∧
    (wait clk0 none 2 conn1 (msgFrame ++ msgFrame ++ msgFrame) 10).st.total = 1 ∧
    (wait clk0 none 2 conn1 (msgFrame ++ msgFrame ++ msgFrame) 10).st.stream =
      msgFrame ++ msgFrame :=
  ⟨rfl, rfl, rfl⟩

/-- C2: the claim says the payload is read as exactly the declared number of
bytes, so `len(payload) == size` and a published payload round-trips.  The
source reads the payload with `readline().strip()`: for the payload
`"a\nb"` (declared size 3, as the emitted PUB header shows) the constructed
Message carries data `"a"` of length 1 ≠ 3, not equal to the original
payload, and the stream is left desynchronized at `"b\r\n"`. -/
theorem C2_payload_truncated :
    publish "foo" "a\nb" none = ["PUB foo 3", "a\nb"] ∧
    matchCmd Cmd.msg ("MSG foo 1 3\r\n".toList) = some (Matched.msg hdrEcho) ∧
    (handle_msg conn1 hdrEcho ("a\nb\r\n".toList)).2.1.data = "a".toList ∧
    (handle_msg conn1 hdrEcho ("a\nb\r\n".toList)).2.1.size = 3 ∧
    (handle_msg conn1 hdrEcho ("a\nb\r\n".toList)).2.2 = "b\r\n".toList ∧
    ("a".toList).length ≠ ("a\nb".toList).length ∧
    "a".toList ≠ "a\nb".toList :=
  ⟨rfl, by decide, rfl, rfl, rfl, by decide, by decide⟩

/-- C4: the claim says `wait(duration=d)` exits once `d` seconds have
elapsed and not earlier.  The source condition `duration and time.time() -
time.time() - start` evaluates `t1 - t2 - start`, which is nonzero (truthy)
whenever the clock readings are equal and `start ≠ 0`: with `duration = 5`,
a constant clock (zero seconds elapsed) and two MSG frames pending, the
loop breaks at the end of the first iteration, one frame processed and one
still on the stream. -/
theorem C4_duration_bug :
    (wait clk100 (some 5) 0 conn1 (msgFrame ++ msgFrame) 10).isFinished = true ∧
    (wait clk100 (some 5) 0 conn1 (msgFrame ++ msgFrame) 10).st.total = 1 ∧
    (wait clk100 (some 5) 0 conn1 (msgFrame ++ msgFrame) 10).st.stream = msgFrame :=
  ⟨rfl, rfl, rfl⟩

/-- C7: `publish(subject, payload, reply)` sends exactly two commands: the
header `PUB <subject> [<reply>] <size>` with the size computed from the
payload, then the raw payload; it consumes nothing from the input stream
(no acknowledgment is awaited — `publish` is a pure function of its
arguments). -/
theorem C7_publish_frames (subject msg : String) (reply : Option String) :
    publish subject msg reply = [specPubHeader subject reply msg.length, msg] := by
  cases reply <;> rfl

/-- C8: the claim says `close()` releases the transport and is idempotent.
The source body of `close` is `pass`: it is the identity on the session
state — hence trivially idempotent — but the transport of a connected
session is NOT released (the socket field is still held afterwards). -/
theorem C8_close_noop :
    (∀ c : Connection, close c = c) ∧
    (∀ c : Connection, close (close c) = close c) ∧
    (close emptyConn).sock = some () :=
  ⟨fun _ => rfl, fun _ => rfl, rfl⟩

/-- `dict.pop` raises exactly when `dict.get` finds nothing. -/
theorem dictPop_eq_none_iff (d : List (Nat × Subscription)) (k : Nat) :
    dictPop d k = none ↔ dictGet d k = none := by
  induction d with
  | nil => simp [dictPop, dictGet]
  | cons p rest ih =>
    obtain ⟨k', v⟩ := p
    by_cases hk : k' = k
    · simp [dictPop, dictGet, hk]
    · cases hpop : dictPop rest k with
      | none => simp [dictPop, dictGet, hk, hpop, ← ih]
      | some r => simp [dictPop, dictGet, hk, hpop, ← ih]

/-- Shared shape of an `unsubscribe` call on an unregistered id: the UNSUB
command is sent, the state is returned unchanged, and a `KeyError` for that
id is raised. -/
theorem unsub_missing_aux (c : Connection) (sub : Subscription)
    (h : dictGet c.subscriptions sub.sid = none) :
    unsubscribe c sub =
      (["UNSUB " ++ toString sub.sid], c, some (PyError.keyError sub.sid)) := by
  unfold unsubscribe
  rw [(dictPop_eq_none_iff c.subscriptions sub.sid).2 h]

/-- The UNSUB command is emitted on every `unsubscribe` call, registered id
or not: the `_send` precedes the registry `pop` in the source. -/
theorem unsub_sent (c : Connection) (sub : Subscription) :
    (unsubscribe c sub).1 = ["UNSUB " ++ toString sub.sid] := by
  unfold unsubscribe
  cases dictPop c.subscriptions sub.sid <;> rfl

/-- C3 counterexample: the claim says an unsubscribe on an unregistered id
fails with `NotSubscribed`; on the source the unconditional
`dict.pop` raises Python's `KeyError` instead, which is a different error. -/
theorem C3_counterexample :
    unsubscribe emptyConn sub1 =
      (["UNSUB 1"], emptyConn, some (PyError.keyError 1)) ∧
    PyError.keyError 1 ≠ PyError.notSubscribed :=
  ⟨rfl, by decide⟩

/-- C3 amended: `unsubscribe` on an id not present in the registry fails —
with Python's `KeyError` rather than a `NotSubscribed` error, since the
source pops unconditionally and defines no such error class — and leaves
the registry (indeed the whole session state) unchanged. -/
theorem C3_unsub_missing_keyerror (c : Connection) (sub : Subscription)
    (h : dictGet c.subscriptions sub.sid = none) :
    unsubscribe c sub =
      (["UNSUB " ++ toString sub.sid], c, some (PyError.keyError sub.sid)) :=
  unsub_missing_aux c sub h

/-- C3 witness: the amended theorem at the empty registry and sid 1. -/
theorem C3_unsub_missing_keyerror_witness :
    dictGet emptyConn.subscriptions 1 = none ∧
    unsubscribe emptyConn sub1 =
      (["UNSUB " ++ toString (1 : Nat)], emptyConn, some (PyError.keyError 1)) :=
  ⟨rfl, C3_unsub_missing_keyerror emptyConn sub1 rfl⟩

/-- C9: when a MSG frame names a sid that is not in the registry, the
`dict.get` yields nothing and the dispatch raises (`None.handle_msg`, an
`AttributeError`) — the frame is not silently skipped. -/
theorem C9_missing_sid_fails (c : Connection) (h : MsgHeader) (stream : List Char)
    (hs : dictGet c.subscriptions h.sid = none) :
    (handle_msg c h stream).1 = Except.error PyError.attributeError := by
  simp only [handle_msg, hs]

/-- C9 witness: a MSG for sid 1 handled on an empty registry raises. -/
theorem C9_missing_sid_fails_witness :
    dictGet emptyConn.subscriptions 1 = none ∧
    (handle_msg emptyConn hdrEcho ("x\r\n".toList)).1 =
      Except.error PyError.attributeError :=
  ⟨rfl, C9_missing_sid_fails emptyConn hdrEcho ("x\r\n".toList) rfl⟩

/-- C10: `unsubscribe` sends the `UNSUB <sid>` command before touching the
registry, so exactly one UNSUB command is emitted for every argument —
including an unregistered id, for which the operation then fails with a
`KeyError` while the state stays unchanged: the failure is not atomic with
respect to the transport side effect. -/
theorem C10_unsub_sends_before_pop (c : Connection) (sub : Subscription) :
    (unsubscribe c sub).1 = ["UNSUB " ++ toString sub.sid] ∧
    (dictGet c.subscriptions sub.sid = none →
      (unsubscribe c sub).2.2 = some (PyError.keyError sub.sid) ∧
      (unsubscribe c sub).2.1 = c) := by
  refine ⟨unsub_sent c sub, fun h => ?_⟩
  rw [unsub_missing_aux c sub h]
  exact ⟨rfl, rfl⟩

/-- C10 witness: on the empty registry the UNSUB command is still the one
command sent and the call fails. -/
theorem C10_unsub_sends_before_pop_witness :
    (unsubscribe emptyConn sub1).1 = ["UNSUB " ++ toString (1 : Nat)] ∧
    (unsubscribe emptyConn sub1).2.2 = some (PyError.keyError 1) :=
  ⟨(C10_unsub_sends_before_pop emptyConn sub1).1,
   ((C10_unsub_sends_before_pop emptyConn sub1).2 rfl).1⟩

/-- A run of `subscribe` calls, recording the assigned ids in order. -/
def subscribeMany : Connection → List (String × (Message → Bool)) → Connection × List Nat
  | c, [] => (c, [])
  | c, (subj, cb) :: rest =>
    let r := subscribe c subj cb
    let r2 := subscribeMany r.1 rest
    (r2.1, r.2.2.sid :: r2.2)

/-- The registry invariant: every registered id is below the counter. -/
def RegistryBelow (c : Connection) : Prop :=
  ∀ p ∈ c.subscriptions, p.1 < c.next_sid

theorem subscribe_next_sid (c : Connection) (subject : String) (cb : Message → Bool) :
    (subscribe c subject cb).1.next_sid = c.next_sid + 1 := rfl

theorem subscribe_assigned (c : Connection) (subject : String) (cb : Message → Bool) :
    (subscribe c subject cb).2.2.sid = c.next_sid := rfl

/-- The ids assigned by a run of `subscribe` calls are the consecutive
naturals starting at the initial counter value. -/
theorem subscribeMany_sids :
    ∀ (ops : List (String × (Message → Bool))) (c : Connection),
      (subscribeMany c ops).2 = List.range' c.next_sid ops.length
  | [], _ => rfl
  | (subj, cb) :: rest, c => by
    have ih := subscribeMany_sids rest (subscribe c subj cb).1
    show (subscribe c subj cb).2.2.sid ::
        (subscribeMany (subscribe c subj cb).1 rest).2 =
      List.range' c.next_sid (rest.length + 1)
    rw [ih, subscribe_next_sid, subscribe_assigned, List.range'_succ]

/-- Membership after a dict insert: the element was there before or is the
inserted binding. -/
theorem dictInsert_mem :
    ∀ (d : List (Nat × Subscription)) (k : Nat) (v : Subscription)
      (p : Nat × Subscription), p ∈ dictInsert d k v → p ∈ d ∨ p = (k, v)
  | [], k, v, p, hp => by
    simp [dictInsert] at hp
    exact Or.inr hp
  | (k', v') :: rest, k, v, p, hp => by
    by_cases hk : k' = k
    · simp only [dictInsert, if_pos hk, List.mem_cons] at hp
      rcases hp with h | h
      · exact Or.inr h
      · exact Or.inl (List.mem_cons_of_mem _ h)
    · simp only [dictInsert, if_neg hk, List.mem_cons] at hp
      rcases hp with h | h
      · exact Or.inl (List.mem_cons.2 (Or.inl h))
      · rcases dictInsert_mem rest k v p h with h2 | h2
        · exact Or.inl (List.mem_cons_of_mem _ h2)
        · exact Or.inr h2

/-- `subscribe` preserves the registry invariant. -/
theorem subscribe_below {c : Connection} (subject : String) (cb : Message → Bool)
    (h : RegistryBelow c) : RegistryBelow (subscribe c subject cb).1 := by
  intro p hp
  have hmem : p ∈ dictInsert c.subscriptions c.next_sid
      { sid := c.next_sid, subject := subject, queue := "", callback := cb } := hp
  show p.1 < c.next_sid + 1
  rcases dictInsert_mem _ _ _ _ hmem with h2 | h2
  · have := h p h2
    omega
  · rw [h2]
    exact Nat.lt_succ_self _

/-- A run of `subscribe` calls preserves the registry invariant. -/
theorem subscribeMany_below :
    ∀ (ops : List (String × (Message → Bool))) (c : Connection),
      RegistryBelow c → RegistryBelow (subscribeMany c ops).1
  | [], _, h => h
  | (subj, cb) :: rest, c, h =>
    subscribeMany_below rest (subscribe c subj cb).1 (subscribe_below subj cb h)

/-- C5: starting from any session satisfying the registry invariant (every
registered id below the counter — true of a fresh session, whose registry
is empty), a sequence of `subscribe` calls assigns the consecutive ids
`next_sid, next_sid+1, ...` — strictly increasing, hence unique — and after
each call the counter is again strictly greater than every registered id. -/
theorem C5_sids_strictly_increasing (c : Connection)
    (ops : List (String × (Message → Bool))) (h : RegistryBelow c) :
    (subscribeMany c ops).2 = List.range' c.next_sid ops.length ∧
    List.Pairwise (· < ·) (subscribeMany c ops).2 ∧
    RegistryBelow (subscribeMany c ops).1 :=
  ⟨subscribeMany_sids ops c,
   by
     rw [subscribeMany_sids ops c]
     exact List.pairwise_lt_range' c.next_sid ops.length,
   subscribeMany_below ops c h⟩

/-- C5 witness: two subscribes on a fresh session get ids 1 and 2. -/
theorem C5_sids_strictly_increasing_witness :
    RegistryBelow emptyConn ∧
    (subscribeMany emptyConn [("foo", cbTrue), ("bar", cbTrue)]).2 = [1, 2] := by
  have h : RegistryBelow emptyConn := by
    intro p hp
    simp [emptyConn] at hp
  exact ⟨h,
    (C5_sids_strictly_increasing emptyConn [("foo", cbTrue), ("bar", cbTrue)] h).1.trans rfl⟩

/-- Reading a stream that starts with the line `PING\r\n` classifies and
matches it as a PING, leaving exactly the bytes after the line. -/
theorem recv_ping (rest : List Char) :
    recv [Cmd.msg, Cmd.ping, Cmd.ok]
        ('P' :: 'I' :: 'N' :: 'G' :: '\r' :: '\n' :: rest) =
      (Except.ok (Matched.ctrl Cmd.ping), rest) := rfl

/-- C6 counterexample: the claim says a broker PING during `wait` does not
terminate the loop for ALL values of the duration argument.  With
`duration = 5`, a constant clock and a MSG frame still pending after the
PING, the source's duration condition (truthy `t1 - t2 - start`) breaks the
loop at the end of the very iteration that answered the PING: the run
finishes having sent exactly one PONG, read no message, and left the MSG
frame on the stream. -/
theorem C6_counterexample :
    (wait clk100 (some 5) 0 conn1 (("PING\r\n").toList ++ msgFrame) 10).isFinished = true ∧
    (wait clk100 (some 5) 0 conn1 (("PING\r\n").toList ++ msgFrame) 10).st.sent = ["PONG"] ∧
    (wait clk100 (some 5) 0 conn1 (("PING\r\n").toList ++ msgFrame) 10).st.total = 0 ∧
    (wait clk100 (some 5) 0 conn1 (("PING\r\n").toList ++ msgFrame) 10).st.stream = msgFrame :=
  ⟨rfl, rfl, rfl, rfl⟩

/-- C6 amended: a broker-initiated PING frame read by the `wait` loop causes
exactly one `PONG` command to be sent and the loop to continue to the next
read, for every count value and every session state, provided the duration
argument is falsy (`None` or `0`); when a nonzero duration is set, the
duration bug can break the loop at the end of that same iteration (still
with exactly the one PONG sent). -/
theorem C6_ping_pongs_and_continues (clock : Nat → Int) (start : Int)
    (duration : Option Int) (count : Nat) (st : WaitSt) (rest : List Char)
    (hs : st.stream = 'P' :: 'I' :: 'N' :: 'G' :: '\r' :: '\n' :: rest)
    (hd : durTruthy duration = false) :
    waitStep clock start duration count st =
      StepRes.cont { st with stream := rest, sent := st.sent ++ ["PONG"] } := by
  obtain ⟨conn, stream, sent, total, tick⟩ := st
  simp only at hs
  subst hs
  simp [waitStep, recv_ping, durCheck, hd]

/-- C6 witness: the amended theorem at a concrete PING-first stream. -/
theorem C6_ping_pongs_and_continues_witness :
    waitStep clk0 0 none 0 ⟨conn1, ("PING\r\n").toList, [], 0, 1⟩ =
      StepRes.cont ⟨conn1, [], ["PONG"], 0, 1⟩ :=
  C6_ping_pongs_and_continues clk0 0 none 0
    ⟨conn1, ("PING\r\n").toList, [], 0, 1⟩ [] rfl rfl

end PyNats
